import Mathlib

/-!
Verification of the job-dashboard repository: the JobStore operations of
the async dashboard module (fetch_jobs, add_new_job, retry_job and the
add-job form handler) and the SQLServerHelper connection / query layer
(connect with retries, ensure_connection, execute_query,
execute_non_query, execute_stored_procedure, async_execute_non_query,
close). Each Python function is shallowly embedded as an executable Lean
definition; environmental effects (the database clock GETDATE, the NEWID
generator, driver success or failure) are explicit parameters.
-/

namespace JobDashboard

/-- A row of the `Jobs` table, with the columns of the dashboard SELECT:
Client, JobID, JobName, Parameters, Status, Message, ExecutedDateTime,
RefNum, RetryCount. Timestamps and ref tokens are modelled as `Nat`. -/
structure Job where
  client : String
  jobID : String
  jobName : String
  parameters : String
  status : String
  message : String
  executedAt : Nat
  refNum : Nat
  retryCount : Nat
deriving DecidableEq, Repr

instance : Inhabited Job :=
  ⟨{ client := "", jobID := "", jobName := "", parameters := "", status := "",
     message := "", executedAt := 0, refNum := 0, retryCount := 0 }⟩

/-- The persisted state: the `Jobs` table plus the two environmental
generators the SQL statements read, `now` for `GETDATE()` and `nextRef`
for `NEWID()` (each `NEWID()` call yields `nextRef` and bumps it). -/
structure DbState where
  jobs : List Job
  now : Nat
  nextRef : Nat
deriving DecidableEq, Repr

/-- Embeds `add_new_job` of async-dashboard.py: the INSERT
`INSERT INTO Jobs (Client, JobName, Parameters, Status, Message,
ExecutedDateTime, RefNum, RetryCount) VALUES (?, ?, ?, Pending, empty,
GETDATE(), NEWID(), 0)`. JobID is not in the column list, so the new row
gets the column default (modelled as the empty string). -/
def add_new_job (db : DbState) (client jobName parameters : String) : DbState :=
  { jobs := db.jobs ++
      [{ client := client, jobID := "", jobName := jobName,
         parameters := parameters, status := "Pending", message := "",
         executedAt := db.now, refNum := db.nextRef, retryCount := 0 }],
    now := db.now,
    nextRef := db.nextRef + 1 }

/-- Embeds `retry_job` of async-dashboard.py: the UPDATE
`UPDATE Jobs SET Status = Retry, RetryCount = RetryCount + 1,
ExecutedDateTime = GETDATE() WHERE JobID = ?`. Returns the new state and
the number of affected rows. -/
def retry_job (db : DbState) (jobId : String) : DbState × Nat :=
  ({ db with jobs := db.jobs.map (fun j =>
      if j.jobID = jobId then
        { j with status := "Retry", retryCount := j.retryCount + 1,
                 executedAt := db.now }
      else j) },
   db.jobs.countP (fun j => decide (j.jobID = jobId)))

/-- The sort key of the dashboard SELECT: `ORDER BY ExecutedDateTime
DESC`, i.e. a row comes before another when its timestamp is at least as
large. -/
def executedDescRel (a b : Job) : Prop := b.executedAt ≤ a.executedAt

instance : DecidableRel executedDescRel := fun a b =>
  inferInstanceAs (Decidable (b.executedAt ≤ a.executedAt))

instance : IsTotal Job executedDescRel :=
  ⟨fun a b => (Nat.le_total b.executedAt a.executedAt).imp id id⟩

instance : IsTrans Job executedDescRel :=
  ⟨fun _ _ _ hab hbc => Nat.le_trans hbc hab⟩

/-- Embeds `fetch_jobs` of async-dashboard.py: `SELECT Client, JobID,
JobName, Parameters, Status, Message, ExecutedDateTime, RefNum,
RetryCount FROM Jobs ORDER BY ExecutedDateTime DESC`, the ORDER BY being
interpreted as sorting the rows by `executedAt` descending. -/
def fetch_jobs (db : DbState) : List Job :=
  db.jobs.insertionSort executedDescRel

/-- The error vocabulary of the spec that the dashboard handlers can
surface. -/
inductive JobError where
  | validationError
deriving DecidableEq, Repr

/-- Embeds the add-job form handler of async-dashboard.py: on submit,
`if client and job_name:` run `add_new_job`, else show the warning and
perform no write (Python truthiness of a string is non-emptiness). -/
def add_job_form (db : DbState) (client jobName parameters : String) :
    DbState × Option JobError :=
  if client ≠ "" ∧ jobName ≠ "" then
    (add_new_job db client jobName parameters, none)
  else
    (db, some JobError.validationError)

end JobDashboard

namespace SQLServerHelper

/-- Observable events of the sync `connect` loop: a connection attempt
(with its zero-based index) and a `sleep(retry_delay)` call. -/
inductive CEvent where
  | attempt (i : Nat)
  | sleepFor (d : Nat)
deriving DecidableEq, Repr

/-- The outcome of `connect`: either it returns (connection and cursor
established) or it raises the max-retries exception. -/
inductive ConnectResult where
  | connected
  | connectionError
deriving DecidableEq, Repr

/-- The body of the `while attempt < self.max_retries` loop of
`SQLServerHelper.connect`, with the remaining number of allowed attempts
as fuel, the index of the current attempt, and the environment
`succeeds` telling whether the pyodbc open on a given attempt index
succeeds. On a failed attempt the code increments the counter, sleeps
`retry_delay`, and loops; when the counter reaches `max_retries` it
raises. Returns the event trace and the outcome. -/
def connectFrom (succeeds : Nat → Bool) (d : Nat) :
    Nat → Nat → List CEvent × ConnectResult
  | _, 0 => ([], ConnectResult.connectionError)
  | attempt, fuel + 1 =>
    if succeeds attempt then
      ([CEvent.attempt attempt], ConnectResult.connected)
    else
      let rest := connectFrom succeeds d (attempt + 1) fuel
      (CEvent.attempt attempt :: CEvent.sleepFor d :: rest.1, rest.2)

/-- Embeds `SQLServerHelper.connect`: starts the loop at `attempt = 0`
with `max_retries` attempts allowed. -/
def connect (succeeds : Nat → Bool) (d maxRetries : Nat) :
    List CEvent × ConnectResult :=
  connectFrom succeeds d 0 maxRetries

/-- Number of connection attempts recorded in a trace. -/
def countAttempts (t : List CEvent) : Nat :=
  t.countP (fun e => match e with | CEvent.attempt _ => true | _ => false)

/-- A sync cursor handle; `live` says whether the `SELECT 1` liveness
probe succeeds on it. -/
structure SyncConn where
  live : Bool
deriving DecidableEq, Repr

/-- Embeds `ensure_connection`: probe the current cursor with
`SELECT 1`; on any failure (including the `AttributeError` raised when
`self.cursor` is still `None`) the exception is caught and `connect` is
called. `connectResult` is the outcome connect would produce. Returns
the cursor to use (or the propagated connect failure) and whether a
(re)connect was triggered. -/
def ensure_connection (cur : Option SyncConn)
    (connectResult : Except String SyncConn) :
    Except String SyncConn × Bool :=
  match cur with
  | some c => if c.live then (Except.ok c, false) else (connectResult, true)
  | none => (connectResult, true)

/-- A query result set: column names and rows of cells. -/
def Table := List String × List (List String)

instance : DecidableEq Table :=
  inferInstanceAs (DecidableEq (List String × List (List String)))

/-- Driver-level calls on the shared connection that the helper makes to
end a write: `conn.commit()` or `conn.rollback()`. -/
inductive DbOp where
  | commit
  | rollback
deriving DecidableEq, Repr

/-- The transaction state of the shared connection: statements whose
effects are committed, and statements applied but not yet committed
(the open transaction). A clean transaction state has `pending = []`. -/
structure TxState where
  committed : List String
  pending : List String
deriving DecidableEq, Repr

/-- Environmental outcome of running one write statement through the
driver: the `cursor.execute` call fails, the `conn.commit` call fails
(after the statement was applied to the open transaction), or everything
succeeds and `cursor.rowcount` reports `rows`. -/
inductive NonQueryOutcome where
  | execFail (msg : String)
  | commitFail (msg : String)
  | ok (rows : Nat)
deriving DecidableEq, Repr

/-- The try/except body of sync `execute_non_query`: execute, commit,
return `cursor.rowcount`; on any exception, `conn.rollback()` and
re-raise. Returns the transaction state, the commit/rollback trace, and
the result. -/
def execute_non_query_body (st : TxState) (sql : String)
    (o : NonQueryOutcome) : TxState × List DbOp × Except String Nat :=
  match o with
  | NonQueryOutcome.execFail m =>
    ({ committed := st.committed, pending := [] }, [DbOp.rollback], Except.error m)
  | NonQueryOutcome.commitFail m =>
    ({ committed := st.committed, pending := [] }, [DbOp.rollback], Except.error m)
  | NonQueryOutcome.ok n =>
    ({ committed := st.committed ++ st.pending ++ [sql], pending := [] },
     [DbOp.commit], Except.ok n)

/-- Embeds sync `execute_non_query`: `self.ensure_connection()` first,
then the try/except body. The last component records whether
`ensure_connection` triggered a (re)connect. -/
def execute_non_query (cur : Option SyncConn)
    (connectResult : Except String SyncConn) (st : TxState) (sql : String)
    (o : NonQueryOutcome) :
    TxState × List DbOp × Except String Nat × Bool :=
  match ensure_connection cur connectResult with
  | (Except.ok _, re) =>
    let r := execute_non_query_body st sql o
    (r.1, r.2.1, r.2.2, re)
  | (Except.error m, re) => (st, [], Except.error m, re)

/-- Embeds `async_execute_non_query`: acquire a pool connection,
execute, commit, return `cur.rowcount`. There is no try/except and no
rollback: a failure propagates as the driver raised it. -/
def async_execute_non_query (st : TxState) (sql : String)
    (o : NonQueryOutcome) : TxState × List DbOp × Except String Nat :=
  match o with
  | NonQueryOutcome.execFail m => (st, [], Except.error m)
  | NonQueryOutcome.commitFail m =>
    ({ committed := st.committed, pending := st.pending ++ [sql] }, [],
     Except.error m)
  | NonQueryOutcome.ok n =>
    ({ committed := st.committed ++ st.pending ++ [sql], pending := [] },
     [DbOp.commit], Except.ok n)

/-- The EXEC statement built by `execute_stored_procedure`: placeholders
are a comma-joined list of `?`, one per parameter. -/
def proc_sql (procName : String) (nparams : Nat) : String :=
  if nparams = 0 then "EXEC " ++ procName
  else "EXEC " ++ procName ++ " " ++
    String.intercalate "," (List.replicate nparams "?")

/-- Environmental outcome of a stored-procedure call: the EXEC fails,
the commit fails, or both succeed and the routine produced the given
result set (`none` when `cursor.description`/`fetchall` fails because no
result set exists). -/
inductive ProcOutcome where
  | execFail (msg : String)
  | commitFail (msg : String)
  | done (resultSet : Option Table)
deriving DecidableEq

/-- The try/except body of sync `execute_stored_procedure`: execute the
EXEC statement, commit, then try to read the result set into a table —
a failure of that inner read is caught and `None` is returned; an
exception from execute or commit triggers `conn.rollback()` and
re-raises. -/
def execute_stored_procedure_body (st : TxState) (procName : String)
    (nparams : Nat) (o : ProcOutcome) :
    TxState × List DbOp × Except String (Option Table) :=
  match o with
  | ProcOutcome.execFail m =>
    ({ committed := st.committed, pending := [] }, [DbOp.rollback], Except.error m)
  | ProcOutcome.commitFail m =>
    ({ committed := st.committed, pending := [] }, [DbOp.rollback], Except.error m)
  | ProcOutcome.done r =>
    ({ committed := st.committed ++ st.pending ++ [proc_sql procName nparams],
       pending := [] }, [DbOp.commit], Except.ok r)

/-- Embeds sync `execute_stored_procedure`: `self.ensure_connection()`
first, then the try/except body. -/
def execute_stored_procedure (cur : Option SyncConn)
    (connectResult : Except String SyncConn) (st : TxState)
    (procName : String) (nparams : Nat) (o : ProcOutcome) :
    TxState × List DbOp × Except String (Option Table) × Bool :=
  match ensure_connection cur connectResult with
  | (Except.ok _, re) =>
    let r := execute_stored_procedure_body st procName nparams o
    (r.1, r.2.1, r.2.2, re)
  | (Except.error m, re) => (st, [], Except.error m, re)

/-- Embeds sync `execute_query`: `self.ensure_connection()` first, then
`pd.read_sql` whose outcome (a table or a raised error, re-raised by the
except branch) is the environment parameter `queryOutcome`. -/
def execute_query (cur : Option SyncConn)
    (connectResult : Except String SyncConn)
    (queryOutcome : Except String Table) : Except String Table × Bool :=
  match ensure_connection cur connectResult with
  | (Except.ok _, re) => (queryOutcome, re)
  | (Except.error m, re) => (Except.error m, re)

/-- Driver close calls made by `SQLServerHelper.close`. -/
inductive CloseOp where
  | closeCursor
  | closeConn
deriving DecidableEq, Repr

/-- Embeds `SQLServerHelper.close`: `if self.cursor:` close it,
`if self.conn:` close it. Returns the trace of close calls. -/
def close (cursor : Option SyncConn) (conn : Option SyncConn) : List CloseOp :=
  (if cursor.isSome then [CloseOp.closeCursor] else []) ++
  (if conn.isSome then [CloseOp.closeConn] else [])

end SQLServerHelper

open JobDashboard SQLServerHelper

/-- `getD` on a mapped list, at an index inside the list, is the mapped
`getD` of the original list. -/
theorem getD_map_of_lt {α β : Type} (f : α → β) (d : β) (d2 : α) :
    ∀ (l : List α) (i : Nat), i < l.length →
      (l.map f).getD i d = f (l.getD i d2)
  | [], i, h => absurd h (by simp)
  | _ :: _, 0, _ => rfl
  | _ :: l, i + 1, h => getD_map_of_lt f d d2 l i (Nat.lt_of_succ_lt_succ h)

/-- A sample job row used to instantiate the theorems. -/
def sampleJob : Job :=
  { client := "Acme", jobID := "J001", jobName := "Scan",
    parameters := "-k eastus", status := "Pending", message := "",
    executedAt := 5, refNum := 1, retryCount := 0 }

/-- A sample one-row database state. -/
def db1 : DbState := { jobs := [sampleJob], now := 9, nextRef := 2 }

/-- A sample two-row database state. -/
def db2 : DbState :=
  { jobs := [sampleJob,
             { sampleJob with jobID := "J002", executedAt := 7, refNum := 2 }],
    now := 9, nextRef := 3 }

/-- C1: a `retry_job` call keeps the table length, the clock and the ref
generator; on the row at any index `i` whose JobID matches the given id
it sets status to Retry, increments retry_count by exactly one and sets
executed_at to the current time while leaving every other column of that
row unchanged, and it leaves any row whose JobID does not match entirely
unchanged. -/
theorem retry_job_updates_only_matching_row (db : DbState) (jobId : String)
    (i : Nat) (h : i < db.jobs.length) :
    ((retry_job db jobId).1).jobs.length = db.jobs.length ∧
    ((retry_job db jobId).1).now = db.now ∧
    ((retry_job db jobId).1).nextRef = db.nextRef ∧
    ((db.jobs.getD i default).jobID = jobId →
      (((retry_job db jobId).1).jobs.getD i default).status = "Retry" ∧
      (((retry_job db jobId).1).jobs.getD i default).retryCount =
        (db.jobs.getD i default).retryCount + 1 ∧
      (((retry_job db jobId).1).jobs.getD i default).executedAt = db.now ∧
      (((retry_job db jobId).1).jobs.getD i default).client =
        (db.jobs.getD i default).client ∧
      (((retry_job db jobId).1).jobs.getD i default).jobID =
        (db.jobs.getD i default).jobID ∧
      (((retry_job db jobId).1).jobs.getD i default).jobName =
        (db.jobs.getD i default).jobName ∧
      (((retry_job db jobId).1).jobs.getD i default).parameters =
        (db.jobs.getD i default).parameters ∧
      (((retry_job db jobId).1).jobs.getD i default).message =
        (db.jobs.getD i default).message ∧
      (((retry_job db jobId).1).jobs.getD i default).refNum =
        (db.jobs.getD i default).refNum) ∧
    ((db.jobs.getD i default).jobID ≠ jobId →
      ((retry_job db jobId).1).jobs.getD i default = db.jobs.getD i default) := by
  refine ⟨by simp [retry_job], rfl, rfl, ?_, ?_⟩
  · intro hid
    rw [show ((retry_job db jobId).1).jobs = db.jobs.map (fun j =>
        if j.jobID = jobId then
          { j with status := "Retry", retryCount := j.retryCount + 1,
                   executedAt := db.now }
        else j) from rfl,
      getD_map_of_lt _ _ default db.jobs i h, if_pos hid]
    exact ⟨rfl, rfl, rfl, rfl, rfl, rfl, rfl, rfl, rfl⟩
  · intro hid
    rw [show ((retry_job db jobId).1).jobs = db.jobs.map (fun j =>
        if j.jobID = jobId then
          { j with status := "Retry", retryCount := j.retryCount + 1,
                   executedAt := db.now }
        else j) from rfl,
      getD_map_of_lt _ _ default db.jobs i h, if_neg hid]

/-- Witness for C1: on `db1` the row at index 0 matches id J001 and a
retry turns its status to Retry, incrementing its retry count. -/
theorem retry_job_updates_only_matching_row_witness :
    (((retry_job db1 "J001").1).jobs.getD 0 default).status = "Retry" ∧
    (((retry_job db1 "J001").1).jobs.getD 0 default).retryCount =
      (db1.jobs.getD 0 default).retryCount + 1 :=
  ⟨((retry_job_updates_only_matching_row db1 "J001" 0
      (by decide)).2.2.2.1 (by decide)).1,
   ((retry_job_updates_only_matching_row db1 "J001" 0
      (by decide)).2.2.2.1 (by decide)).2.1⟩

/-- C2: with non-empty client and job name, `add_new_job` appends
exactly one row, which has status Pending, retry count 0, empty message,
executed_at equal to the current time, the given client, name and
parameters, and a freshly generated ref_num distinct from the ref_num of
every existing row. -/
theorem add_new_job_creates_pending_row (db : DbState) (c n p : String)
    (hc : c ≠ "") (hn : n ≠ "")
    (hfresh : ∀ j ∈ db.jobs, j.refNum < db.nextRef) :
    ∃ newJob : Job,
      (add_new_job db c n p).jobs = db.jobs ++ [newJob] ∧
      newJob.status = "Pending" ∧
      newJob.retryCount = 0 ∧
      newJob.message = "" ∧
      newJob.executedAt = db.now ∧
      newJob.client = c ∧
      newJob.jobName = n ∧
      newJob.parameters = p ∧
      newJob.refNum = db.nextRef ∧
      ∀ j ∈ db.jobs, j.refNum ≠ newJob.refNum := by
  refine ⟨_, rfl, rfl, rfl, rfl, rfl, rfl, rfl, rfl, rfl, ?_⟩
  intro j hj
  exact Nat.ne_of_lt (hfresh j hj)

/-- Witness for C2: adding a job to `db1`. -/
theorem add_new_job_creates_pending_row_witness :
    ∃ newJob : Job,
      (add_new_job db1 "Contoso" "Inventory" "-sub Prod").jobs =
        db1.jobs ++ [newJob] ∧
      newJob.status = "Pending" ∧
      newJob.retryCount = 0 ∧
      newJob.message = "" ∧
      newJob.executedAt = db1.now ∧
      newJob.client = "Contoso" ∧
      newJob.jobName = "Inventory" ∧
      newJob.parameters = "-sub Prod" ∧
      newJob.refNum = db1.nextRef ∧
      ∀ j ∈ db1.jobs, j.refNum ≠ newJob.refNum :=
  add_new_job_creates_pending_row db1 "Contoso" "Inventory" "-sub Prod"
    (by decide) (by decide) (by decide)

/-- C3: the sequence returned by `fetch_jobs` is sorted by executed_at
descending: at every adjacent pair of indices the later element's
timestamp is at most the earlier one's. -/
theorem fetch_jobs_sorted_desc (db : DbState) (i : Nat)
    (h : i + 1 < (fetch_jobs db).length) :
    ((fetch_jobs db).getD (i + 1) default).executedAt ≤
      ((fetch_jobs db).getD i default).executedAt := by
  have hs : List.Sorted executedDescRel (fetch_jobs db) :=
    List.sorted_insertionSort executedDescRel db.jobs
  have h1 : i < (fetch_jobs db).length := Nat.lt_of_succ_lt h
  rw [List.getD_eq_getElem _ _ h, List.getD_eq_getElem _ _ h1]
  exact List.pairwise_iff_getElem.mp hs i (i + 1) h1 h (Nat.lt_succ_self i)

/-- Witness for C3: on the two-row state `db2` the first listed job has
the larger timestamp. -/
theorem fetch_jobs_sorted_desc_witness :
    0 + 1 < (fetch_jobs db2).length ∧
    ((fetch_jobs db2).getD (0 + 1) default).executedAt ≤
      ((fetch_jobs db2).getD 0 default).executedAt :=
  ⟨by decide, fetch_jobs_sorted_desc db2 0 (by decide)⟩

/-- C4: submitting the add-job form with an empty client or an empty job
name yields the validation error and performs no write — the state is
returned unchanged. -/
theorem add_job_form_rejects_empty (db : DbState) (c n p : String)
    (h : c = "" ∨ n = "") :
    add_job_form db c n p = (db, some JobError.validationError) := by
  unfold add_job_form
  rcases h with h | h <;> simp [h]

/-- Witness for C4: an empty client on `db1` is rejected without a
write. -/
theorem add_job_form_rejects_empty_witness :
    add_job_form db1 "" "Scan" "-k eastus" =
      (db1, some JobError.validationError) :=
  add_job_form_rejects_empty db1 "" "Scan" "-k eastus" (Or.inl rfl)

/-- C5 counterexample: on `db1`, whose only row has JobID J001,
`retry_job` called with the unknown id J999 matches zero rows and
returns successfully with zero affected rows and the table unchanged —
no NotFoundError exists anywhere in the operation, contradicting the
claim that a missing id fails rather than silently succeeding. -/
theorem retry_job_missing_id_silent_cex :
    db1.jobs.countP (fun j => decide (j.jobID = "J999")) = 0 ∧
    retry_job db1 "J999" = (db1, 0) := by
  decide

/-- C5 amended: `retry_job` on an id matching no stored row returns
successfully with zero affected rows and leaves the job table unchanged;
no error is raised. -/
theorem retry_job_missing_id_noop (db : DbState) (jobId : String)
    (h : ∀ j ∈ db.jobs, j.jobID ≠ jobId) :
    retry_job db jobId = (db, 0) := by
  unfold retry_job
  have hmap : db.jobs.map (fun j =>
      if j.jobID = jobId then
        { j with status := "Retry", retryCount := j.retryCount + 1,
                 executedAt := db.now }
      else j) = db.jobs := by
    have := List.map_congr_left (l := db.jobs)
      (g := id) (f := fun j =>
        if j.jobID = jobId then
          { j with status := "Retry", retryCount := j.retryCount + 1,
                   executedAt := db.now }
        else j)
      (fun j hj => by simp [h j hj])
    simpa using this
  have hcount : db.jobs.countP (fun j => decide (j.jobID = jobId)) = 0 :=
    List.countP_eq_zero.mpr (fun j hj => by simp [h j hj])
  rw [hmap, hcount]

/-- Witness for the C5 amended theorem: a missing id on `db2`. -/
theorem retry_job_missing_id_noop_witness :
    retry_job db2 "J123" = (db2, 0) :=
  retry_job_missing_id_noop db2 "J123" (by decide)

/-- The trace of an exhausted connect loop that started at attempt
`start` with `len` attempts left: each failed attempt is followed by a
sleep of the retry delay. -/
theorem connectFrom_allfail (d : Nat) :
    ∀ (fuel start : Nat),
      connectFrom (fun _ => false) d start fuel =
        ((List.range' start fuel).flatMap
           (fun i => [CEvent.attempt i, CEvent.sleepFor d]),
         ConnectResult.connectionError)
  | 0, start => by simp [connectFrom]
  | fuel + 1, start => by
    rw [connectFrom, List.range'_succ]
    simp [connectFrom_allfail d fuel (start + 1)]

/-- Counting attempts in an attempt/sleep pair trace. -/
theorem countAttempts_pairs (d : Nat) :
    ∀ (len start : Nat),
      countAttempts ((List.range' start len).flatMap
        (fun i => [CEvent.attempt i, CEvent.sleepFor d])) = len
  | 0, start => by simp [countAttempts]
  | len + 1, start => by
    have ih := countAttempts_pairs d len (start + 1)
    rw [List.range'_succ, List.flatMap_cons, countAttempts,
      List.countP_append]
    rw [countAttempts] at ih
    rw [ih]
    show 1 + len = len + 1
    omega

/-- The connect loop when the first success happens at the attempt `j`
steps after `start` and enough attempts remain: the trace is `j` failed
attempt/sleep pairs followed by the successful attempt. -/
theorem connectFrom_first_success (succeeds : Nat → Bool) (d : Nat) :
    ∀ (j start fuel : Nat), j < fuel →
      (∀ i, i < j → succeeds (start + i) = false) →
      succeeds (start + j) = true →
      connectFrom succeeds d start fuel =
        (((List.range' start j).flatMap
            (fun i => [CEvent.attempt i, CEvent.sleepFor d])) ++
          [CEvent.attempt (start + j)],
         ConnectResult.connected)
  | 0, start, fuel + 1, _, _, hsucc => by
    rw [connectFrom]
    simp at hsucc
    simp [hsucc]
  | j + 1, start, fuel + 1, hj, hfail, hsucc => by
    have h0 : succeeds start = false := by
      have := hfail 0 (Nat.succ_pos j)
      simpa using this
    have ih := connectFrom_first_success succeeds d j (start + 1) fuel
      (Nat.lt_of_succ_lt_succ hj)
      (fun i hi => by
        have := hfail (i + 1) (Nat.succ_lt_succ hi)
        have harith : start + (i + 1) = start + 1 + i := by omega
        rw [harith] at this
        exact this)
      (by
        have harith : start + (j + 1) = start + 1 + j := by omega
        rw [harith] at hsucc
        exact hsucc)
    rw [connectFrom, h0]
    simp only [Bool.false_eq_true, if_false]
    rw [ih, List.range'_succ, List.flatMap_cons]
    have harith : start + 1 + j = start + (j + 1) := by omega
    simp [harith]

/-- C7: for any max_retries at least 1, `connect` against an endpoint
whose open always fails makes exactly max_retries attempts, sleeping the
retry delay between consecutive attempts (the trace is an attempt/sleep
pair per failure), and then raises the connection error; against an
endpoint that first succeeds on attempt `k` with `k` at most
max_retries, it returns connected after exactly `k` attempts, having
slept between each of the `k` attempts. -/
theorem connect_retry_semantics (m d k : Nat) (succeeds : Nat → Bool)
    (hm : 1 ≤ m) (hk1 : 1 ≤ k) (hkm : k ≤ m)
    (hfail : ∀ i, i + 1 < k → succeeds i = false)
    (hsucc : succeeds (k - 1) = true) :
    connect (fun _ => false) d m =
      ((List.range m).flatMap
         (fun i => [CEvent.attempt i, CEvent.sleepFor d]),
       ConnectResult.connectionError) ∧
    countAttempts (connect (fun _ => false) d m).1 = m ∧
    connect succeeds d m =
      (((List.range (k - 1)).flatMap
          (fun i => [CEvent.attempt i, CEvent.sleepFor d])) ++
        [CEvent.attempt (k - 1)],
       ConnectResult.connected) ∧
    countAttempts (connect succeeds d m).1 = k := by
  have hall : connect (fun _ => false) d m =
      ((List.range' 0 m).flatMap
         (fun i => [CEvent.attempt i, CEvent.sleepFor d]),
       ConnectResult.connectionError) :=
    connectFrom_allfail d m 0
  have hsuc : connect succeeds d m =
      (((List.range' 0 (k - 1)).flatMap
          (fun i => [CEvent.attempt i, CEvent.sleepFor d])) ++
        [CEvent.attempt (k - 1)],
       ConnectResult.connected) := by
    have := connectFrom_first_success succeeds d (k - 1) 0 m
      (by omega)
      (fun i hi => by
        have := hfail i (by omega)
        simpa using this)
      (by simpa using hsucc)
    simpa [connect] using this
  refine ⟨by rw [List.range_eq_range']; exact hall, ?_, ?_, ?_⟩
  · rw [hall]
    exact countAttempts_pairs d m 0
  · rw [List.range_eq_range']
    exact hsuc
  · rw [hsuc, countAttempts, List.countP_append]
    have := countAttempts_pairs d (k - 1) 0
    rw [countAttempts] at this
    rw [this]
    show k - 1 + 1 = k
    omega

/-- Witness for C7 at max_retries 3, delay 0: the always-failing
endpoint gets 3 attempts and the error; an endpoint succeeding on the
second attempt gets exactly 2 attempts and connects. -/
theorem connect_retry_semantics_witness :
    countAttempts (connect (fun _ => false) 0 3).1 = 3 ∧
    (connect (fun _ => false) 0 3).2 = ConnectResult.connectionError ∧
    countAttempts (connect (fun i => decide (i = 1)) 0 3).1 = 2 ∧
    (connect (fun i => decide (i = 1)) 0 3).2 = ConnectResult.connected :=
  have hmain := connect_retry_semantics 3 0 2 (fun i => decide (i = 1))
    (by decide) (by decide) (by decide)
    (fun i hi => by
      have : i = 0 := by omega
      subst this
      rfl)
    (by decide)
  ⟨hmain.2.1, by rw [hmain.1], hmain.2.2.2, by rw [hmain.2.2.1]⟩

/-- C6 counterexample: the asynchronous write path performs no rollback
on failure. When the commit of a write fails after the statement was
applied, `async_execute_non_query` propagates the error with an empty
driver-call trace (in particular no rollback call) and with the
transaction state left dirty (the statement still pending), contradicting
the claim that both disciplines roll back and leave the state clean. -/
theorem async_non_query_no_rollback_cex :
    (async_execute_non_query { committed := [], pending := [] }
        "UPDATE Jobs SET Status = Retry WHERE JobID = ?"
        (NonQueryOutcome.commitFail "commit failed")).2.2 =
      Except.error "commit failed" ∧
    (async_execute_non_query { committed := [], pending := [] }
        "UPDATE Jobs SET Status = Retry WHERE JobID = ?"
        (NonQueryOutcome.commitFail "commit failed")).2.1 = [] ∧
    (async_execute_non_query { committed := [], pending := [] }
        "UPDATE Jobs SET Status = Retry WHERE JobID = ?"
        (NonQueryOutcome.commitFail "commit failed")).1.pending ≠ [] :=
  ⟨rfl, rfl, by decide⟩

/-- C6 amended: the synchronous `execute_non_query` commits on success
and returns the affected-row count, and on any failure (of the execute
or of the commit) performs a rollback before the error propagates,
leaving the transaction state clean; the asynchronous
`async_execute_non_query` commits on success and returns the count, but
on failure performs no rollback — the error propagates with the
transaction state as the failed operation left it. -/
theorem execute_non_query_commit_rollback (cr : Except String SyncConn)
    (st : TxState) (sql : String) (n : Nat) (m : String) :
    execute_non_query (some { live := true }) cr st sql
        (NonQueryOutcome.ok n) =
      ({ committed := st.committed ++ st.pending ++ [sql], pending := [] },
       [DbOp.commit], Except.ok n, false) ∧
    execute_non_query (some { live := true }) cr st sql
        (NonQueryOutcome.execFail m) =
      ({ committed := st.committed, pending := [] }, [DbOp.rollback],
       Except.error m, false) ∧
    execute_non_query (some { live := true }) cr st sql
        (NonQueryOutcome.commitFail m) =
      ({ committed := st.committed, pending := [] }, [DbOp.rollback],
       Except.error m, false) ∧
    async_execute_non_query st sql (NonQueryOutcome.ok n) =
      ({ committed := st.committed ++ st.pending ++ [sql], pending := [] },
       [DbOp.commit], Except.ok n) ∧
    async_execute_non_query st sql (NonQueryOutcome.execFail m) =
      (st, [], Except.error m) ∧
    async_execute_non_query st sql (NonQueryOutcome.commitFail m) =
      ({ committed := st.committed, pending := st.pending ++ [sql] }, [],
       Except.error m) :=
  ⟨rfl, rfl, rfl, rfl, rfl, rfl⟩

/-- C8: a stored-procedure call whose EXEC and commit succeed returns
the result set as a table when one can be read, and returns none —
without raising — when reading the result set fails; only execute or
commit failures propagate as errors, and each of those performs a
rollback first. -/
theorem execute_stored_procedure_result_semantics
    (cr : Except String SyncConn) (st : TxState) (pn : String) (np : Nat)
    (t : Table) (m : String) :
    execute_stored_procedure (some { live := true }) cr st pn np
        (ProcOutcome.done (some t)) =
      ({ committed := st.committed ++ st.pending ++ [proc_sql pn np],
         pending := [] }, [DbOp.commit], Except.ok (some t), false) ∧
    execute_stored_procedure (some { live := true }) cr st pn np
        (ProcOutcome.done none) =
      ({ committed := st.committed ++ st.pending ++ [proc_sql pn np],
         pending := [] }, [DbOp.commit], Except.ok none, false) ∧
    execute_stored_procedure (some { live := true }) cr st pn np
        (ProcOutcome.execFail m) =
      ({ committed := st.committed, pending := [] }, [DbOp.rollback],
       Except.error m, false) ∧
    execute_stored_procedure (some { live := true }) cr st pn np
        (ProcOutcome.commitFail m) =
      ({ committed := st.committed, pending := [] }, [DbOp.rollback],
       Except.error m, false) :=
  ⟨rfl, rfl, rfl, rfl⟩

/-- C9: each synchronous query operation invoked before any connect —
the cursor handle still absent — triggers a connect through the failed
liveness probe of `ensure_connection` (the reconnect flag is true) and
then proceeds with its normal body on the fresh connection, rather than
failing with a missing-connection error. -/
theorem sync_ops_connect_before_first_use (c : SyncConn)
    (q : Except String Table) (st : TxState) (sql : String)
    (o : NonQueryOutcome) (pn : String) (np : Nat) (po : ProcOutcome) :
    execute_query none (Except.ok c) q = (q, true) ∧
    execute_non_query none (Except.ok c) st sql o =
      ((execute_non_query_body st sql o).1,
       (execute_non_query_body st sql o).2.1,
       (execute_non_query_body st sql o).2.2, true) ∧
    execute_stored_procedure none (Except.ok c) st pn np po =
      ((execute_stored_procedure_body st pn np po).1,
       (execute_stored_procedure_body st pn np po).2.1,
       (execute_stored_procedure_body st pn np po).2.2, true) :=
  ⟨rfl, rfl, rfl⟩

/-- C10: `close` on a helper that was never connected (cursor and
connection both absent) performs no close call at all — and, being a
total function, raises nothing — while with both handles present it
closes the cursor and then the connection. -/
theorem close_never_connected_safe (c k : SyncConn) :
    close none none = ([] : List CloseOp) ∧
    close (some c) (some k) = [CloseOp.closeCursor, CloseOp.closeConn] :=
  ⟨rfl, rfl⟩
